import Mathlib

/-!
Verification of the imv session controller (src/imv.c) against its
natural-language specification.  Pure fragments of the C code are embedded
as Lean functions; machine integers are modelled as Nat or Int with
explicit reductions modulo two to a power where the C arithmetic wraps.
Components of the repository that are declared in imv.c but implemented in
files outside the provided sources (navigator.c, the program entry point)
are modelled from the specification; every such definition carries a doc
comment starting with the words Modelled from the spec.
-/

/-! ## C character classification and strtoul / strtol (ctype.h, stdlib.h) -/

/-- Models the C isspace classification used by strtoul when skipping
leading whitespace: space, tab, newline, vertical tab, form feed,
carriage return. -/
def isSpaceC (c : Char) : Bool :=
  decide (c = ' ' ∨ c = '\t' ∨ c = '\n' ∨ c = '\x0b' ∨ c = '\x0c' ∨ c = '\r')

/-- Models the C isxdigit classification (codes 48-57 are the digits 0-9,
97-102 are a-f, 65-70 are A-F). -/
def isHexDigit (c : Char) : Bool :=
  decide ((48 ≤ c.toNat ∧ c.toNat ≤ 57) ∨ (97 ≤ c.toNat ∧ c.toNat ≤ 102) ∨
    (65 ≤ c.toNat ∧ c.toNat ≤ 70))

/-- Models the C isdigit classification (codes 48-57). -/
def isDigitC (c : Char) : Bool :=
  decide (48 ≤ c.toNat ∧ c.toNat ≤ 57)

/-- Numeric value of one hexadecimal digit character, as computed inside
strtoul (digit, lowercase letter, uppercase letter). -/
def hexVal (c : Char) : Nat :=
  if c.toNat ≤ 57 then c.toNat - 48
  else if 97 ≤ c.toNat then c.toNat - 97 + 10
  else c.toNat - 65 + 10

/-- Accumulation of hexadecimal digits into a value, as strtoul does. -/
def hexFold (cs : List Char) : Nat :=
  List.foldl (fun acc c => 16 * acc + hexVal c) 0 cs

/-- Accumulation of decimal digits into a value, as strtoul does. -/
def decFold (cs : List Char) : Nat :=
  List.foldl (fun acc c => 10 * acc + (c.toNat - 48)) 0 cs

/-- Models C strtoul with base 16 on a character list.  Returns the value
(as a 64-bit unsigned long: clamped to ULONG_MAX on overflow, negated
modulo two to the 64 under a leading minus sign) together with the number
of characters consumed, which is the endptr offset.  strtoul skips leading
whitespace, accepts an optional sign and an optional 0x or 0X marker that
must be followed by a hexadecimal digit, and consumes the longest run of
hexadecimal digits; when no digit is consumed it performs no conversion
and reports zero characters consumed. -/
def cStrtoul16 (s : List Char) : Nat × Nat :=
  let ws := (s.takeWhile isSpaceC).length
  let r1 := s.drop ws
  let nsign := if r1.head? = some '-' ∨ r1.head? = some '+' then 1 else 0
  let r2 := r1.drop nsign
  let npfx :=
    if r2.head? = some '0' ∧
       ((r2.drop 1).head? = some 'x' ∨ (r2.drop 1).head? = some 'X') ∧
       ((r2.drop 2).head?.elim false isHexDigit) = true
    then 2 else 0
  let digits := (r2.drop npfx).takeWhile isHexDigit
  if digits.length = 0 then (0, 0)
  else
    let raw := hexFold digits
    let v := if raw < 2 ^ 64 then raw else 2 ^ 64 - 1
    let v2 := if r1.head? = some '-' then (2 ^ 64 - v) % 2 ^ 64 else v
    (v2, ws + nsign + npfx + digits.length)

/-- Models C strtoul with base 10 on a character list, same conventions as
cStrtoul16 but without a base marker. -/
def cStrtoul10 (s : List Char) : Nat × Nat :=
  let ws := (s.takeWhile isSpaceC).length
  let r1 := s.drop ws
  let nsign := if r1.head? = some '-' ∨ r1.head? = some '+' then 1 else 0
  let digits := (r1.drop nsign).takeWhile isDigitC
  if digits.length = 0 then (0, 0)
  else
    let raw := decFold digits
    let v := if raw < 2 ^ 64 then raw else 2 ^ 64 - 1
    let v2 := if r1.head? = some '-' then (2 ^ 64 - v) % 2 ^ 64 else v
    (v2, ws + nsign + digits.length)

/-- Models C strtol with base 10: like cStrtoul10 but producing a signed
long, clamped to LONG_MAX or LONG_MIN on overflow. -/
def cStrtol10 (s : List Char) : Int × Nat :=
  let ws := (s.takeWhile isSpaceC).length
  let r1 := s.drop ws
  let neg := r1.head? = some '-'
  let nsign := if r1.head? = some '-' ∨ r1.head? = some '+' then 1 else 0
  let digits := (r1.drop nsign).takeWhile isDigitC
  if digits.length = 0 then (0, 0)
  else
    let raw := decFold digits
    let v : Int :=
      if neg then (if raw ≥ 2 ^ 63 then -(2 ^ 63) else -(raw : Int))
      else (if raw ≥ 2 ^ 63 then 2 ^ 63 - 1 else (raw : Int))
    (v, ws + nsign + digits.length)

/-- ULONG_MAX for the 64-bit unsigned long used throughout imv.c. -/
def ULONG_MAX : Nat := 2 ^ 64 - 1

/-! ## Enumerations from src/imv.c (lines 39-56) -/

/-- The scaling_mode enumeration of imv.c lines 39-44. -/
inductive scaling_mode where
  | SCALING_NONE
  | SCALING_DOWN
  | SCALING_FULL
deriving DecidableEq

/-- The background_type enumeration of imv.c lines 52-56. -/
inductive background_type where
  | BACKGROUND_SOLID
  | BACKGROUND_CHEQUERED
deriving DecidableEq

/-- Successor modulo SCALING_MODE_COUNT, as computed by the key handler at
imv.c lines 671-673. -/
def scaling_mode_next : scaling_mode → scaling_mode
  | .SCALING_NONE => .SCALING_DOWN
  | .SCALING_DOWN => .SCALING_FULL
  | .SCALING_FULL => .SCALING_NONE

/-! ## The Source Cursor (navigator), modelled from the specification -/

/-- Modelled from the spec: navigator.c is not among the provided sources.
Section 4.1 describes the Source Cursor as an ordered sequence of
identifiers, a current index, and two poll-and-clear latches: a changed
latch raised when the index mutates and a sticky wrapped latch raised when
relative selection crosses either boundary. -/
structure Navigator where
  paths : List String
  cur : Nat
  changed : Bool
  wrapped : Bool
deriving DecidableEq

/-- Modelled from the spec: the current identifier of the cursor, or none
when the sequence is empty (imv_navigator_selection). -/
def Navigator.selection (n : Navigator) : Option String :=
  n.paths[n.cur]?

/-- Modelled from the spec: poll-and-clear read of the changed latch
(imv_navigator_poll_changed). -/
def Navigator.poll_changed (n : Navigator) : Bool × Navigator :=
  (n.changed, { n with changed := false })

/-- Modelled from the spec: poll-and-clear read of the wrapped latch
(imv_navigator_wrapped). -/
def Navigator.poll_wrapped (n : Navigator) : Bool × Navigator :=
  (n.wrapped, { n with wrapped := false })

/-- Modelled from the spec: imv_navigator_remove removes the first
occurrence of the identifier; the index is decremented when an earlier
element was removed so that it keeps naming the same identifier, and is
clamped to the new last element when it would run off the end; the changed
latch is raised only when the effective current identifier differs
afterwards. -/
def Navigator.remove (n : Navigator) (id : String) : Navigator :=
  if id ∈ n.paths then
    let i := n.paths.indexOf id
    let paths2 := n.paths.erase id
    let cur2 :=
      if i < n.cur then n.cur - 1
      else if n.cur < paths2.length then n.cur
      else paths2.length - 1
    { paths := paths2, cur := cur2,
      changed := n.changed || decide (paths2[cur2]? ≠ n.paths[n.cur]?),
      wrapped := n.wrapped }
  else n

/-- Modelled from the spec: imv_navigator_select_rel moves the index by
delta positions wrapping modulo the sequence length, raises the sticky
wrapped latch when either boundary is crossed, raises the changed latch
when the index mutates, and is a no-op on an empty sequence. -/
def Navigator.select_rel (n : Navigator) (delta : Int) : Navigator :=
  if n.paths.length = 0 then n
  else
    let len : Int := n.paths.length
    let raw : Int := (n.cur : Int) + delta
    let idx := (raw % len).toNat
    { n with cur := idx,
             changed := n.changed || decide (idx ≠ n.cur),
             wrapped := n.wrapped || decide (raw < 0 ∨ len ≤ raw) }

/-! ## Session state (struct imv, lines 58-92) -/

/-- The background color triple of struct imv (line 71, three unsigned
char fields). -/
structure BgColor where
  r : Nat
  g : Nat
  b : Nat
deriving DecidableEq

/-- The session state: the fields of struct imv (imv.c lines 58-92) that
the embedded code fragments read or write.  Pointer-valued collaborators
that live outside the provided sources (loader, texture, renderer, font)
are omitted; the playing flag of the viewport is lifted here as
view_playing because imv.c reads and writes it directly.  The pending raw
bytes buffer stdin_image_data is an optional byte list and
stdin_image_data_len its recorded length, and the text-entry buffer
input_buffer is an optional string that is none exactly when the session
is not in text-entry mode. -/
structure Imv where
  quit : Bool
  fullscreen : Bool
  overlay_enabled : Bool
  nearest_neighbour : Bool
  need_redraw : Bool
  need_rescale : Bool
  recursive_load : Bool
  cycle_input : Bool
  list_at_exit : Bool
  paths_from_stdin : Bool
  scaling_mode : scaling_mode
  background_type : background_type
  background_color : BgColor
  slideshow_image_duration : Nat
  slideshow_time_elapsed : Nat
  navigator : Navigator
  view_playing : Bool
  stdin_image_data : Option (List Nat)
  stdin_image_data_len : Nat
  input_buffer : Option String
deriving DecidableEq

/-- The constructor defaults of imv_create (imv.c lines 107-155).  The C
code leaves background_type uninitialized; the model picks
BACKGROUND_SOLID, and no claim depends on that choice.  The navigator
starts empty and the viewport playing flag starts cleared. -/
def imv_create : Imv :=
  { quit := false
    fullscreen := false
    overlay_enabled := false
    nearest_neighbour := false
    need_redraw := true
    need_rescale := true
    recursive_load := false
    cycle_input := true
    list_at_exit := false
    paths_from_stdin := false
    scaling_mode := .SCALING_FULL
    background_type := .BACKGROUND_SOLID
    background_color := ⟨0, 0, 0⟩
    slideshow_image_duration := 0
    slideshow_time_elapsed := 0
    navigator := ⟨[], 0, false, false⟩
    view_playing := false
    stdin_image_data := none
    stdin_image_data_len := 0
    input_buffer := none }

/-! ## Argument parsing fragments of imv_parse_args (lines 190-322) -/

/-- The character list after the optional leading hash mark, as computed
at imv.c line 233. -/
def stripHash : List Char → List Char
  | '#' :: t => t
  | cs => cs

/-- The option b handler of imv_parse_args (imv.c lines 228-243): the
literal string checks selects the chequered background; otherwise the
argument, after an optional leading hash mark, is parsed by strtoul in
base 16 into the 32-bit unsigned n, and the parse is rejected (the C code
returns false) unless the endptr landed on the terminating NUL after
consuming exactly six characters with n at most 0xFFFFFF.  The three
unsigned char color fields receive n reduced modulo 2 to the 8 after
shifts of 16, 8 and 0 bits (C writes n >> 16, (n >> 8) & 0xFF, n & 0xFF).
Returns none for a rejected argument. -/
def parse_b (imv : Imv) (optarg : String) : Option Imv :=
  if optarg = "checks" then
    some { imv with background_type := .BACKGROUND_CHEQUERED }
  else
    let imv1 := { imv with background_type := .BACKGROUND_SOLID }
    let argp := stripHash optarg.toList
    let r := cStrtoul16 argp
    let n := r.1 % 2 ^ 32
    if r.2 ≠ argp.length ∨ r.2 ≠ 6 ∨ n > 0xFFFFFF then none
    else
      some { imv1 with
               background_color :=
                 ⟨n / 2 ^ 16 % 2 ^ 8, n / 2 ^ 8 % 2 ^ 8, n % 2 ^ 8⟩ }

/-- The slideshow duration computed by the option t handler of
imv_parse_args (imv.c lines 244-257): the whole seconds are parsed by
strtoul base 10 and multiplied by 1000 in unsigned long arithmetic; when a
period follows, the fractional digits are parsed by strtoul, stored in a
signed long, and multiplied by ten once for each of (3 - consumed)
iterations of an int counter; the result is added when below 1000 and
otherwise the duration becomes ULONG_MAX.  For more than three consumed
fractional characters the C counter starts negative and that loop never
reaches zero (undefined behaviour); the model uses truncated Nat
subtraction there, so the multiplier collapses to one.  No claim exercises
that region. -/
def slideshow_duration_of (cs : List Char) : Nat :=
  let w := cStrtoul10 cs
  let dur : Nat := w.1 * 1000 % 2 ^ 64
  match cs.drop w.2 with
  | '.' :: frac =>
    let f := cStrtoul10 frac
    let delay0 : Int := if f.1 < 2 ^ 63 then (f.1 : Int) else (f.1 : Int) - 2 ^ 64
    let delay := delay0 * 10 ^ (3 - f.2)
    if delay < 1000 then (((dur : Int) + delay).emod (2 ^ 64)).toNat
    else ULONG_MAX
  | _ => dur

/-- The option t handler of imv_parse_args (imv.c lines 244-262): the
computed duration is stored, and the parse is rejected (the C code prints
and returns false) exactly when that duration equals ULONG_MAX. -/
def parse_t (imv : Imv) (optarg : String) : Option Imv :=
  let dur := slideshow_duration_of optarg.toList
  if dur = ULONG_MAX then none
  else some { imv with slideshow_image_duration := dur }

/-- Whether a string is exactly six hexadecimal digits after an optional
leading hash mark: the validity notion used verbatim by claim C6. -/
def isSixHexColor (s : String) : Bool :=
  let cs := stripHash s.toList
  cs.length == 6 && cs.all isHexDigit

/-- The hexadecimal value denoted by a six-digit color string. -/
def sixHexValue (s : String) : Nat :=
  hexFold (stripHash s.toList)

/-- Outcome of process startup: the exit status and whether a window was
ever created. -/
structure StartResult where
  exit_code : Nat
  window_created : Bool
deriving DecidableEq

/-- Modelled from the spec: the program entry point is not among the
provided sources.  Sections 6 and 7 state that invalid command line
argument values are rejected with a non-zero exit before any window is
created; a successful parse proceeds into imv_run, which creates the
window through setup_window unless quit was already requested (imv.c lines
361-367). -/
def startup (parsed : Option Imv) : StartResult :=
  match parsed with
  | none => { exit_code := 1, window_created := false }
  | some imv => { exit_code := 0, window_created := !imv.quit }

/-! ## Per-tick fragments of imv_run (lines 361-532) -/

/-- The decode failure drain of imv_run (imv.c lines 406-421): when the
loader reports a failed path, that path is removed from the navigator; if
the failed path is the raw-bytes sentinel (strncmp with bound 2 against
the string of one dash, hence exact string equality), a still-pending
stdin image buffer is freed and its recorded length reset to zero.  The
loop then proceeds; nothing here raises quit or leaves the loop. -/
def errorStep (imv : Imv) (err_path : Option String) : Imv :=
  match err_path with
  | none => imv
  | some p =>
    let imv1 := { imv with navigator := imv.navigator.remove p }
    if p = "-" then
      if imv1.stdin_image_data.isSome then
        { imv1 with stdin_image_data := none, stdin_image_data_len := 0 }
      else imv1
    else imv1

/-- A load request issued to the decode pipeline by imv_loader_load
(imv.c lines 445-446): the selected path together with the pending stdin
bytes and their recorded length. -/
structure LoadReq where
  path : String
  bytes : Option (List Nat)
  len : Nat
deriving DecidableEq

/-- Result of the navigation fragment of a tick: the successor state,
whether the C break statement ended the loop, and the load requests
issued. -/
structure NavStepResult where
  state : Imv
  broke : Bool
  loads : List LoadReq
deriving DecidableEq

/-- The changed-selection fragment of imv_run (imv.c lines 429-448): the
changed latch is polled; when it was raised and the selection is gone the
session quits with a message unless paths are still streaming in from
stdin (the C continue statement merely skips to the next iteration);
when a selection exists a load request for it is issued to the loader and
the viewport playing flag is raised.  Window title construction (lines
439-443) touches no modelled state. -/
def navChangedStep (imv : Imv) : NavStepResult :=
  let pc := imv.navigator.poll_changed
  let imv1 := { imv with navigator := pc.2 }
  if pc.1 then
    match imv1.navigator.selection with
    | none =>
      if imv1.paths_from_stdin = false then
        { state := { imv1 with quit := true }, broke := false, loads := [] }
      else
        { state := imv1, broke := false, loads := [] }
    | some p =>
      { state := { imv1 with view_playing := true }, broke := false,
        loads := [⟨p, imv1.stdin_image_data, imv1.stdin_image_data_len⟩] }
  else
    { state := imv1, broke := false, loads := [] }

/-- The wraparound check of imv_run (imv.c lines 423-426) followed by the
changed-selection fragment: when cycling is disabled the wrapped latch is
polled (the C conjunction short-circuits, so with cycling enabled the
latch is not even read) and, when it was raised, the break statement ends
the loop before any of the later fragments run. -/
def navCheckStep (imv : Imv) : NavStepResult :=
  if imv.cycle_input = false then
    let pw := imv.navigator.poll_wrapped
    let imv1 := { imv with navigator := pw.2 }
    if pw.1 then { state := imv1, broke := true, loads := [] }
    else navChangedStep imv1
  else navChangedStep imv

/-- The rescale fragment of imv_run (imv.c lines 463-474): when the
rescale flag is set it is cleared, and the viewport is scaled to actual
size when the mode is SCALING_NONE, or when the mode is SCALING_DOWN and
the window strictly exceeds the cached image in both dimensions;
otherwise the viewport is scaled to the window.  The second component
reports which viewport call was made, none when the flag was clear. -/
inductive FitKind where
  | actual
  | window
deriving DecidableEq

def rescaleStep (imv : Imv) (ww wh iw ih : Int) : Imv × Option FitKind :=
  if imv.need_rescale then
    let imv1 := { imv with need_rescale := false }
    if imv1.scaling_mode = .SCALING_NONE ∨
       (imv1.scaling_mode = .SCALING_DOWN ∧ ww > iw ∧ wh > ih) then
      (imv1, some .actual)
    else
      (imv1, some .window)
  else (imv, none)

/-- The animation timing fragment of imv_run (imv.c lines 477-490): when
the viewport is playing, the elapsed millisecond delta is capped at 100
and handed to imv_loader_time_passed divided by 1000 as seconds; when
paused, nothing is fed.  The returned value is the exact rational passed
to the loader, none when no call is made. -/
def advanceTimeStep (imv : Imv) (dt : Nat) : Option ℚ :=
  if imv.view_playing then
    some (((if dt > 100 then 100 else dt : Nat) : ℚ) / 1000)
  else none

/-- The slideshow fragment of imv_run (imv.c lines 492-502): with a
nonzero configured duration the elapsed-time accumulator grows by the
tick delta in unsigned long arithmetic and a redraw is requested; once the
accumulator reaches the duration the navigator is advanced by one and the
accumulator is reset to zero unconditionally. -/
def slideshowStep (imv : Imv) (dt : Nat) : Imv :=
  if imv.slideshow_image_duration ≠ 0 then
    let elapsed := (imv.slideshow_time_elapsed + dt) % 2 ^ 64
    let imv1 := { imv with slideshow_time_elapsed := elapsed, need_redraw := true }
    if imv1.slideshow_image_duration ≤ imv1.slideshow_time_elapsed then
      { imv1 with navigator := imv1.navigator.select_rel 1,
                  slideshow_time_elapsed := 0 }
    else imv1
  else imv

/-! ## Event handling (handle_event, imv.c lines 598-758) -/

/-- The SDL key symbols that the keydown switch of handle_event
distinguishes.  Constructor otherKey stands for every symbol the switch
has no case for, which the C code silently ignores. -/
inductive Key where
  | escape
  | ret
  | backspace
  | semicolon
  | q
  | leftbracket
  | left
  | rightbracket
  | right
  | equals
  | plus
  | i
  | up
  | minus
  | o
  | down
  | s
  | r
  | a
  | c
  | j
  | k
  | h
  | l
  | x
  | f
  | period
  | space
  | p
  | d
  | t
  | otherKey
deriving DecidableEq

/-- The SDL events handle_event switches on.  A keydown carries its key
symbol, whether a shift-class modifier is held (for the t key the C code
also accepts caps lock), and the key repeat flag.  A textinput carries the
UTF-8 text of the event, at most 31 bytes in SDL. -/
inductive IEvent where
  | quitEv
  | textinput (text : String)
  | keydown (key : Key) (shift : Bool) (repeated : Bool)
  | mousewheel
  | mousemotion
  | windowevent
deriving DecidableEq

/-- Result of handle_event: the successor session state, the command
lines handed to imv_command_exec in order, and whether control reached the
Normal-mode key switch (imv.c lines 638-742).  Command execution itself
lives in commands.c outside the provided sources, so dispatched lines are
recorded rather than interpreted. -/
structure EventResult where
  imv : Imv
  execs : List String
  normalKeySwitch : Bool
deriving DecidableEq

/-- The Normal-mode key switch of handle_event (imv.c lines 638-742),
reached only when no text-entry buffer exists.  Keys whose cases touch
only the viewport transform, the loader, or standard output (the zoom
keys, a, c, period, p) leave every modelled field unchanged.  The
semicolon case opens text-entry mode under shift by allocating the
1024-byte command buffer holding the empty string; the t case adjusts the
slideshow duration by 1000 milliseconds, never below zero. -/
def normalKeydown (imv : Imv) (key : Key) (shift repeated : Bool) : EventResult :=
  match key with
  | .semicolon =>
    if shift then
      ⟨{ imv with input_buffer := some (""), need_redraw := true }, [], true⟩
    else ⟨imv, [], true⟩
  | .q => ⟨{ imv with quit := true }, ["quit"], true⟩
  | .leftbracket => ⟨imv, ["select_rel -1"], true⟩
  | .left => ⟨imv, ["select_rel -1"], true⟩
  | .rightbracket => ⟨imv, ["select_rel 1"], true⟩
  | .right => ⟨imv, ["select_rel 1"], true⟩
  | .s =>
    if repeated = false then
      ⟨{ imv with scaling_mode := scaling_mode_next imv.scaling_mode,
                  need_rescale := true, need_redraw := true }, [], true⟩
    else ⟨imv, [], true⟩
  | .r =>
    if repeated = false then
      ⟨{ imv with need_rescale := true, need_redraw := true }, [], true⟩
    else ⟨imv, [], true⟩
  | .j => ⟨imv, ["pan 0 -50"], true⟩
  | .k => ⟨imv, ["pan 0 50"], true⟩
  | .h => ⟨imv, ["pan 50 0"], true⟩
  | .l => ⟨imv, ["pan -50 0"], true⟩
  | .x => if repeated = false then ⟨imv, ["remove"], true⟩ else ⟨imv, [], true⟩
  | .f => if repeated = false then ⟨imv, ["fullscreen"], true⟩ else ⟨imv, [], true⟩
  | .space =>
    if repeated = false then
      ⟨{ imv with view_playing := !imv.view_playing }, [], true⟩
    else ⟨imv, [], true⟩
  | .d => if repeated = false then ⟨imv, ["overlay"], true⟩ else ⟨imv, [], true⟩
  | .t =>
    if shift then
      ⟨{ imv with
           slideshow_image_duration :=
             if 1000 ≤ imv.slideshow_image_duration then
               imv.slideshow_image_duration - 1000
             else imv.slideshow_image_duration,
           need_redraw := true }, [], true⟩
    else
      ⟨{ imv with
           slideshow_image_duration :=
             (imv.slideshow_image_duration + 1000) % 2 ^ 64,
           need_redraw := true }, [], true⟩
  | _ => ⟨imv, [], true⟩

/-- The byte capacity of the text-entry buffer allocated at imv.c line
642 (command_buffer_len, line 600). -/
def command_buffer_len : Nat := 1024

/-- The buffer content produced by the strncat call at imv.c line 607:
strncat appends at most command_buffer_len - 1 bytes of the event text to
the current contents, regardless of how full the buffer already is. -/
def strncatText (buf text : String) : String :=
  buf ++ text.take (command_buffer_len - 1)

/-- handle_event (imv.c lines 598-758).  A window-close event dispatches
the quit command.  A textinput event appends to the text-entry buffer via
strncat (the C code would dereference a null buffer outside text-entry
mode; SDL only delivers textinput between the StartTextInput and
StopTextInput calls, and the model leaves the state unchanged there).  A
keydown with a live text-entry buffer is consumed entirely by the
text-entry branch (imv.c lines 614-636): escape discards the buffer,
return dispatches the buffered line and discards the buffer, backspace
erases the final byte of a nonempty buffer, every other key changes
nothing, and the early return prevents the Normal-mode switch from
running.  Mouse wheel, mouse motion and window events touch only the
viewport transform. -/
def handle_event (imv : Imv) (e : IEvent) : EventResult :=
  match e with
  | .quitEv => ⟨imv, ["quit"], false⟩
  | .textinput text =>
    match imv.input_buffer with
    | some buf =>
      ⟨{ imv with input_buffer := some (strncatText buf text),
                  need_redraw := true }, [], false⟩
    | none => ⟨imv, [], false⟩
  | .keydown key shift repeated =>
    match imv.input_buffer with
    | some buf =>
      if key = .escape then
        ⟨{ imv with input_buffer := none, need_redraw := true }, [], false⟩
      else if key = .ret then
        ⟨{ imv with input_buffer := none, need_redraw := true }, [buf], false⟩
      else if key = .backspace then
        if 0 < buf.length then
          ⟨{ imv with input_buffer := some (buf.dropRight 1),
                      need_redraw := true }, [], false⟩
        else ⟨imv, [], false⟩
      else ⟨imv, [], false⟩
    | none => normalKeydown imv key shift repeated
  | .mousewheel => ⟨imv, [], false⟩
  | .mousemotion => ⟨imv, [], false⟩
  | .windowevent => ⟨imv, [], false⟩

/-! ## Write extent of the strncat call (for the buffer safety claim) -/

/-- The byte offset of the last byte written by a C strncat appending to a
string of dstLen bytes with bound n: at most n source bytes are copied and
one terminating NUL always follows them, so the highest offset touched is
dstLen plus the smaller of srcLen and n. -/
def strncat_last_write (dstLen srcLen n : Nat) : Nat :=
  dstLen + min srcLen n

/-- The byte offsets of the final NUL written by each successive
textinput event (imv.c line 607), starting from a buffer holding a string
of the given length.  Each event with text of the given byte length grows
the stored string by at most command_buffer_len - 1 bytes, with no regard
for the space remaining in the 1024-byte allocation. -/
def text_input_writes : Nat → List Nat → List Nat
  | _, [] => []
  | len, tlen :: rest =>
    strncat_last_write len tlen (command_buffer_len - 1) ::
      text_input_writes (len + min tlen (command_buffer_len - 1)) rest

/-! ## Command handlers defined in imv.c (lines 826-895) -/

/-- command_select_rel (imv.c lines 846-857): with any token count other
than two the handler returns without effect; otherwise the second token is
parsed by strtol base 10, the navigator moves by that delta, and the
slideshow elapsed-time accumulator is reset to zero. -/
def command_select_rel (args : List String) (imv : Imv) : Imv :=
  match args with
  | [_, arg] =>
    { imv with navigator := imv.navigator.select_rel (cStrtol10 arg.toList).1,
               slideshow_time_elapsed := 0 }
  | _ => imv

/-- command_remove (imv.c lines 871-880): duplicates the current
selection, removes it from the navigator, and resets the slideshow
elapsed-time accumulator to zero.  With an empty cursor the C code hands
a null pointer to strdup (undefined behaviour); the model leaves the
state unchanged there and the claims constrain only the defined region. -/
def command_remove (args : List String) (imv : Imv) : Imv :=
  match args, imv.navigator.selection with
  | _, some sel =>
    { imv with navigator := imv.navigator.remove sel,
               slideshow_time_elapsed := 0 }
  | _, none => imv

/-! ## Claim C3 -/

/-- C3: when a rescale is pending during a tick, the viewport transform is
chosen by the current scaling mode: SCALING_NONE always scales to actual
size, SCALING_FULL always scales to the window, and SCALING_DOWN compares
window and image dimensions exactly, choosing actual size when the window
strictly exceeds the image in both dimensions and the window fit
otherwise; the rescale flag is cleared afterwards. -/
theorem claim_C3 (imv : Imv) (ww wh iw ih : Int)
    (h : imv.need_rescale = true) :
    (rescaleStep imv ww wh iw ih).1.need_rescale = false ∧
    (imv.scaling_mode = .SCALING_NONE →
      (rescaleStep imv ww wh iw ih).2 = some .actual) ∧
    (imv.scaling_mode = .SCALING_FULL →
      (rescaleStep imv ww wh iw ih).2 = some .window) ∧
    (imv.scaling_mode = .SCALING_DOWN →
      (rescaleStep imv ww wh iw ih).2 =
        some (if ww > iw ∧ wh > ih then FitKind.actual else FitKind.window)) := by
  rcases hm : imv.scaling_mode
  · refine ⟨?_, ?_, ?_, ?_⟩ <;> simp [rescaleStep, h, hm]
  · refine ⟨?_, ?_, ?_, ?_⟩ <;> simp [rescaleStep, h, hm] <;>
      by_cases hd : ww > iw ∧ wh > ih <;> simp [hd]
  · refine ⟨?_, ?_, ?_, ?_⟩ <;> simp [rescaleStep, h, hm]

/-- Session state for the C3 witness: shrink-to-fit mode with a pending
rescale. -/
def imvC3w : Imv :=
  { imv_create with scaling_mode := .SCALING_DOWN, need_rescale := true }

theorem claim_C3_witness :
    (rescaleStep imvC3w 800 600 400 300).2 =
      some (if (800 : Int) > 400 ∧ (600 : Int) > 300 then FitKind.actual
            else FitKind.window) :=
  (claim_C3 imvC3w 800 600 400 300 rfl).2.2.2 rfl

/-! ## Claim C7 -/

/-- C7: on every tick, the elapsed millisecond delta is clamped to an
upper bound of 100 before being fed to the decode pipeline as seconds, the
feed happens only while the viewport playing flag is set, and deltas at or
below 100 pass through unchanged divided by 1000. -/
theorem claim_C7 (imv : Imv) (dt : Nat) :
    (imv.view_playing = false → advanceTimeStep imv dt = none) ∧
    (imv.view_playing = true →
      advanceTimeStep imv dt = some (((min dt 100 : Nat) : ℚ) / 1000)) ∧
    (imv.view_playing = true → dt ≤ 100 →
      advanceTimeStep imv dt = some ((dt : ℚ) / 1000)) := by
  refine ⟨fun h => by simp [advanceTimeStep, h], fun h => ?_, fun h hdt => ?_⟩
  · simp only [advanceTimeStep, h, if_true]
    have e : (if dt > 100 then 100 else dt) = min dt 100 := by
      rcases le_or_lt dt 100 with h1 | h1
      · simp [Nat.not_lt.mpr h1, Nat.min_eq_left h1]
      · simp [h1, Nat.min_eq_right h1.le]
    rw [e]
  · simp only [advanceTimeStep, h, if_true]
    have e : ¬ (dt > 100) := by omega
    simp [e]

/-- Session state for the C7 witness: viewport playing. -/
def imvC7w : Imv := { imv_create with view_playing := true }

theorem claim_C7_witness :
    advanceTimeStep imvC7w 150 = some (((min 150 100 : Nat) : ℚ) / 1000) ∧
    advanceTimeStep imv_create 150 = none :=
  ⟨(claim_C7 imvC7w 150).2.1 rfl, (claim_C7 imv_create 150).1 rfl⟩

/-! ## Claim C9 -/

/-- C9: the claim states that appending incoming text to the command
input buffer never writes past the end of the 1024-byte allocation.  The
strncat call at imv.c line 607 bounds each append by the total capacity
instead of the space remaining, so the claim fails: after 33 textinput
events of 31 bytes each the stored string holds 1023 bytes, and the 34th
such event makes strncat write bytes up to offset 1054 of the 1024-byte
buffer.  Every event here respects the 31-byte SDL text field bound. -/
theorem claim_C9_overflow :
    ((List.replicate 34 31).all fun t => decide (t ≤ 31)) = true ∧
    ((text_input_writes 0 (List.replicate 34 31)).any
      fun w => decide (command_buffer_len ≤ w)) = true ∧
    (text_input_writes 0 (List.replicate 34 31)).getLast? = some 1054 := by
  decide

/-! ## Claim C4 -/

/-- C4: with a slideshow interval of 2000 milliseconds, elapsed-time
deltas of 1500 and then 600 milliseconds trigger exactly one cursor
advance by one (the first tick leaves the navigator untouched with the
accumulator at 1500; the second performs a single select_rel by one) and
the accumulator is reset to zero, dropping the 100 millisecond
overshoot. -/
theorem claim_C4 (imv : Imv) (hd : imv.slideshow_image_duration = 2000)
    (he : imv.slideshow_time_elapsed = 0) :
    (slideshowStep imv 1500).navigator = imv.navigator ∧
    (slideshowStep imv 1500).slideshow_time_elapsed = 1500 ∧
    (slideshowStep (slideshowStep imv 1500) 600).navigator =
      (slideshowStep imv 1500).navigator.select_rel 1 ∧
    (slideshowStep (slideshowStep imv 1500) 600).slideshow_time_elapsed = 0 := by
  have h1 : slideshowStep imv 1500 =
      { imv with slideshow_time_elapsed := 1500, need_redraw := true } := by
    have e1 : (imv.slideshow_time_elapsed + 1500) % 2 ^ 64 = 1500 := by
      rw [he]; norm_num
    unfold slideshowStep
    rw [hd, e1]
    norm_num
  have h2 : slideshowStep ({ imv with slideshow_time_elapsed := 1500, need_redraw := true }) 600 =
      { imv with navigator := imv.navigator.select_rel 1,
                 slideshow_time_elapsed := 0, need_redraw := true } := by
    have e2 : (1500 + 600) % 2 ^ 64 = 2100 := by norm_num
    unfold slideshowStep
    simp only [hd, e2]
    norm_num
  rw [h1, h2]
  refine ⟨rfl, rfl, rfl, rfl⟩

/-- Session state for the C4 witness: three sources, a 2000 millisecond
slideshow interval, accumulator at zero. -/
def imvC4w : Imv :=
  { imv_create with slideshow_image_duration := 2000,
                    navigator := ⟨["a", "b", "c"], 0, false, false⟩ }

theorem claim_C4_witness :
    (slideshowStep (slideshowStep imvC4w 1500) 600).navigator =
      (slideshowStep imvC4w 1500).navigator.select_rel 1 ∧
    (slideshowStep (slideshowStep imvC4w 1500) 600).slideshow_time_elapsed = 0 :=
  ⟨(claim_C4 imvC4w rfl rfl).2.2.1, (claim_C4 imvC4w rfl rfl).2.2.2⟩

/-! ## Claim C5 -/

/-- C5: when the changed latch fires and the source cursor has become
empty (its selection is none), the session quits when no streaming feed is
active, and keeps running (quit stays clear, the loop is not left) while
paths are still arriving from stdin. -/
theorem claim_C5 (imv : Imv) (hc : imv.navigator.changed = true)
    (hs : imv.navigator.selection = none) (hq : imv.quit = false) :
    (imv.paths_from_stdin = false → (navChangedStep imv).state.quit = true) ∧
    (imv.paths_from_stdin = true →
      (navChangedStep imv).state.quit = false ∧
      (navChangedStep imv).broke = false) := by
  have hs2 : ({ imv.navigator with changed := false } : Navigator).selection = none := by
    simpa [Navigator.selection] using hs
  constructor
  · intro h
    simp [navChangedStep, Navigator.poll_changed, hc, hs2, h]
  · intro h
    simp [navChangedStep, Navigator.poll_changed, hc, hs2, h, hq]

/-- Session state for the C5 witness: empty cursor, changed latch raised,
no streaming feed. -/
def imvC5w : Imv := { imv_create with navigator := ⟨[], 0, true, false⟩ }

theorem claim_C5_witness : (navChangedStep imvC5w).state.quit = true :=
  (claim_C5 imvC5w rfl rfl rfl).1 rfl

/-! ## Claim C8 -/

/-- C8: on a tick where the wraparound latch is observed with input
cycling disabled, the loop breaks before any load request is issued; with
cycling enabled the wraparound check never ends the loop (the break of
imv.c line 425 is the only fragment that sets broke). -/
theorem claim_C8 (imv : Imv) :
    (imv.cycle_input = false → imv.navigator.wrapped = true →
      (navCheckStep imv).broke = true ∧ (navCheckStep imv).loads = []) ∧
    (imv.cycle_input = true → (navCheckStep imv).broke = false) := by
  have hb : ∀ s : Imv, (navChangedStep s).broke = false := by
    intro s
    unfold navChangedStep
    rcases h1 : (s.navigator.poll_changed).1 <;> simp [h1]
    rcases h2 : ({ s with navigator := (s.navigator.poll_changed).2 } : Imv).navigator.selection
      <;> simp [h2]
    split <;> rfl
  constructor
  · intro h hw
    simp [navCheckStep, Navigator.poll_wrapped, h, hw]
  · intro h
    simp [navCheckStep, h, hb]

/-- Session state for the C8 witness: cycling disabled, wrapped latch
raised. -/
def imvC8w : Imv :=
  { imv_create with cycle_input := false, navigator := ⟨["a"], 0, false, true⟩ }

theorem claim_C8_witness :
    (navCheckStep imvC8w).broke = true ∧ (navCheckStep imvC8w).loads = [] :=
  (claim_C8 imvC8w).1 rfl rfl

/-! ## Claim C10 -/

/-- C10: executing select_rel with exactly one argument, or remove with a
live selection, resets the slideshow elapsed-time accumulator to zero, so
manual navigation or removal restarts the current slideshow interval. -/
theorem claim_C10 (imv : Imv) (a0 a1 : String) (args : List String)
    (hsel : imv.navigator.selection.isSome = true) :
    (command_select_rel [a0, a1] imv).slideshow_time_elapsed = 0 ∧
    (command_remove args imv).slideshow_time_elapsed = 0 := by
  constructor
  · rfl
  · obtain ⟨p, hp⟩ := Option.isSome_iff_exists.mp hsel
    cases args <;> simp [command_remove, hp]

/-- Session state for the C10 witness: one source selected, accumulator
part way through an interval. -/
def imvC10w : Imv :=
  { imv_create with navigator := ⟨["a"], 0, false, false⟩,
                    slideshow_time_elapsed := 777 }

theorem claim_C10_witness :
    (command_select_rel ["select_rel", "1"] imvC10w).slideshow_time_elapsed = 0 ∧
    (command_remove ["remove"] imvC10w).slideshow_time_elapsed = 0 :=
  claim_C10 imvC10w ("select_rel") ("1") ["remove"] rfl

/-! ## Claim C1 -/

/-- C1: a decode failure for identifier X drained on a tick removes
exactly one occurrence of X from the source cursor (the count of X drops
by one and every other count is untouched), and when X is the raw-bytes
sentinel the pending stdin buffer is freed and its recorded length reset
to zero; the quit flag is untouched, so the loop continues.  The length
hypothesis is the allocation invariant of imv_create and the drain itself:
a vanished buffer has recorded length zero. -/
theorem claim_C1 (imv : Imv) (p : String) (hmem : p ∈ imv.navigator.paths)
    (hinv : imv.stdin_image_data = none → imv.stdin_image_data_len = 0) :
    (errorStep imv (some p)).navigator.paths.count p + 1 =
      imv.navigator.paths.count p ∧
    (∀ q : String, q ≠ p →
      (errorStep imv (some p)).navigator.paths.count q =
        imv.navigator.paths.count q) ∧
    (p = "-" → (errorStep imv (some p)).stdin_image_data = none ∧
      (errorStep imv (some p)).stdin_image_data_len = 0) ∧
    (errorStep imv (some p)).quit = imv.quit := by
  have hnav : (errorStep imv (some p)).navigator = imv.navigator.remove p := by
    simp only [errorStep]
    split
    · split <;> rfl
    · rfl
  have hquit : (errorStep imv (some p)).quit = imv.quit := by
    simp only [errorStep]
    split
    · split <;> rfl
    · rfl
  have hrm : (imv.navigator.remove p).paths = imv.navigator.paths.erase p := by
    unfold Navigator.remove
    rw [if_pos hmem]
  have hpos : 0 < imv.navigator.paths.count p := List.count_pos_iff.mpr hmem
  refine ⟨?_, ?_, ?_, hquit⟩
  · rw [hnav, hrm, List.count_erase_self]
    omega
  · intro q hql
    rw [hnav, hrm, List.count_erase_of_ne hql]
  · intro hp
    subst hp
    simp only [errorStep]
    rcases hd : imv.stdin_image_data with _ | d
    · simp [hd, hinv hd]
    · simp [hd]

/-- Session state for the C1 witness: the raw-bytes sentinel and one path,
with a pending stdin buffer of one byte. -/
def imvC1w : Imv :=
  { imv_create with navigator := ⟨["-", "a"], 0, false, false⟩,
                    stdin_image_data := some [7], stdin_image_data_len := 1 }

theorem claim_C1_witness :
    (errorStep imvC1w (some ("-"))).navigator.paths.count ("-") + 1 =
      imvC1w.navigator.paths.count ("-") ∧
    (errorStep imvC1w (some ("-"))).stdin_image_data = none ∧
    (errorStep imvC1w (some ("-"))).stdin_image_data_len = 0 :=
  ⟨(claim_C1 imvC1w ("-") (by decide) (by decide)).1,
   ((claim_C1 imvC1w ("-") (by decide) (by decide)).2.2.1 rfl).1,
   ((claim_C1 imvC1w ("-") (by decide) (by decide)).2.2.1 rfl).2⟩

/-! ## Claim C2 -/

/-- Session state in text-entry mode whose buffer holds two bytes. -/
def imvC2 : Imv := { imv_create with input_buffer := some ("ab") }

/-- C2 counterexample: the claim asserts that in text-entry mode every
key-down event cancels (discarding the buffer), submits (executing the
buffered line), or edits the buffer.  A key-down of the q key in
text-entry mode does none of the three: the buffer is kept, unchanged, and
no command line is dispatched; the whole session state is untouched. -/
theorem claim_C2_counterexample :
    imvC2.input_buffer = some ("ab") ∧
    (handle_event imvC2 (IEvent.keydown Key.q false false)).imv = imvC2 ∧
    (handle_event imvC2 (IEvent.keydown Key.q false false)).execs = [] := by
  decide

/-- C2 as amended: while the session is in text-entry mode, every key-down
event either cancels (escape: buffer discarded), submits (return: the
buffered line is dispatched to the command registry, then the buffer is
discarded), edits the buffer (backspace: the final byte is erased, which
on an empty buffer leaves it empty), or leaves the session state entirely
unchanged; and no key-down event in this mode ever reaches the Normal-mode
key switch or dispatches a Normal-mode command. -/
theorem claim_C2_amended (imv : Imv) (buf : String) (key : Key)
    (shift repeated : Bool) (h : imv.input_buffer = some buf) :
    (handle_event imv (IEvent.keydown key shift repeated)).normalKeySwitch = false ∧
    ((key = Key.escape ∧
        (handle_event imv (IEvent.keydown key shift repeated)).imv.input_buffer = none ∧
        (handle_event imv (IEvent.keydown key shift repeated)).execs = []) ∨
     (key = Key.ret ∧
        (handle_event imv (IEvent.keydown key shift repeated)).execs = [buf] ∧
        (handle_event imv (IEvent.keydown key shift repeated)).imv.input_buffer = none) ∨
     (key = Key.backspace ∧
        (handle_event imv (IEvent.keydown key shift repeated)).imv.input_buffer =
          some (buf.dropRight 1) ∧
        (handle_event imv (IEvent.keydown key shift repeated)).execs = []) ∨
     (key ≠ Key.escape ∧ key ≠ Key.ret ∧ key ≠ Key.backspace ∧
        handle_event imv (IEvent.keydown key shift repeated) =
          ⟨imv, [], false⟩)) := by
  cases key <;> simp [handle_event, h]
  rcases Nat.eq_zero_or_pos buf.length with h0 | h0
  · have hb : buf = "" := by
      cases buf with
      | mk data =>
        cases data with
        | nil => rfl
        | cons c cs => simp [String.length] at h0
    subst hb
    rw [if_neg (by decide)]
    exact ⟨rfl, by rw [h]; decide, rfl⟩
  · simp [h0]

theorem claim_C2_witness :
    (handle_event imvC2 (IEvent.keydown Key.escape false false)).normalKeySwitch
      = false :=
  (claim_C2_amended imvC2 ("ab") Key.escape false false rfl).1

/-! ## Claim C6: auxiliary facts about the strtoul model -/

theorem hexVal_le15 {c : Char} (h : isHexDigit c = true) : hexVal c ≤ 15 := by
  have h2 : (48 ≤ c.toNat ∧ c.toNat ≤ 57) ∨ (97 ≤ c.toNat ∧ c.toNat ≤ 102) ∨
      (65 ≤ c.toNat ∧ c.toNat ≤ 70) := by
    simpa [isHexDigit] using h
  unfold hexVal
  rcases h2 with ⟨h3, h4⟩ | ⟨h3, h4⟩ | ⟨h3, h4⟩ <;> split_ifs <;> omega

theorem hex_not_space {c : Char} (h : isHexDigit c = true) : isSpaceC c = false := by
  rw [isSpaceC, decide_eq_false_iff_not]
  rintro (rfl | rfl | rfl | rfl | rfl | rfl) <;> exact absurd h (by decide)

theorem hex_ne {c : Char} (d : Char) (h : isHexDigit c = true)
    (hd : isHexDigit d = false) : ¬ c = d := by
  rintro rfl
  simp [h] at hd

theorem hexFold_aux (cs : List Char) (h : cs.all isHexDigit = true) :
    ∀ acc, List.foldl (fun a c => 16 * a + hexVal c) acc cs <
      (acc + 1) * 16 ^ cs.length := by
  induction cs with
  | nil => intro acc; simp
  | cons c t ih =>
    intro acc
    have hc : isHexDigit c = true := by
      simp only [List.all_cons, Bool.and_eq_true] at h
      exact h.1
    have ht : t.all isHexDigit = true := by
      simp only [List.all_cons, Bool.and_eq_true] at h
      exact h.2
    have hv : hexVal c ≤ 15 := hexVal_le15 hc
    have step : List.foldl (fun a c => 16 * a + hexVal c) (16 * acc + hexVal c) t <
        (16 * acc + hexVal c + 1) * 16 ^ t.length := ih ht _
    have grow : (16 * acc + hexVal c + 1) * 16 ^ t.length ≤
        ((acc + 1) * 16) * 16 ^ t.length :=
      Nat.mul_le_mul_right _ (by omega)
    have : List.foldl (fun a c => 16 * a + hexVal c) (16 * acc + hexVal c) t <
        (acc + 1) * 16 ^ (t.length + 1) := by
      calc List.foldl (fun a c => 16 * a + hexVal c) (16 * acc + hexVal c) t
          < (16 * acc + hexVal c + 1) * 16 ^ t.length := step
        _ ≤ ((acc + 1) * 16) * 16 ^ t.length := grow
        _ = (acc + 1) * 16 ^ (t.length + 1) := by ring
    simpa [List.length_cons] using this

theorem hexFold_lt (cs : List Char) (h : cs.all isHexDigit = true) :
    hexFold cs < 16 ^ cs.length := by
  have := hexFold_aux cs h 0
  simpa [hexFold] using this

/-- On a nonempty run of at most fifteen hexadecimal digits, the strtoul
model consumes the whole run and returns its digit value: none of the
whitespace, sign, or 0x cases can fire because no hexadecimal digit is a
space, a sign, or the letter x. -/
theorem cStrtoul16_allhex (cs : List Char) (hne : cs ≠ [])
    (hall : cs.all isHexDigit = true) (hlen : cs.length ≤ 15) :
    cStrtoul16 cs = (hexFold cs, cs.length) := by
  rcases cs with _ | ⟨c, t⟩
  · exact absurd rfl hne
  have hc : isHexDigit c = true := by
    simp only [List.all_cons, Bool.and_eq_true] at hall
    exact hall.1
  have hcm : ¬ c = '-' := hex_ne '-' hc (by decide)
  have hcp : ¬ c = '+' := hex_ne '+' hc (by decide)
  have e1 : ((c :: t).takeWhile isSpaceC) = [] := by
    simp [List.takeWhile_cons, hex_not_space hc]
  have e2 : (c :: t).takeWhile isHexDigit = c :: t :=
    List.takeWhile_eq_self_iff.mpr (fun x hx => List.all_eq_true.mp hall x hx)
  have hraw : hexFold (c :: t) < 2 ^ 64 :=
    lt_of_lt_of_le (hexFold_lt _ hall)
      (le_trans (Nat.pow_le_pow_right (by norm_num) hlen) (by norm_num))
  have hpfx : ¬ (c = '0' ∧ (t.head? = some 'x' ∨ t.head? = some 'X') ∧
      ((t.drop 1).head?.elim false isHexDigit) = true) := by
    rintro ⟨-, h2, -⟩
    rcases t with _ | ⟨y, t2⟩
    · simp at h2
    · have hy : isHexDigit y = true := by
        simp only [List.all_cons, Bool.and_eq_true] at hall
        exact hall.2.1
      simp only [List.head?_cons, Option.some.injEq] at h2
      rcases h2 with rfl | rfl
      · exact absurd hy (by decide)
      · exact absurd hy (by decide)
  simp only [cStrtoul16, e1, List.length_nil, List.drop_zero, List.head?_cons,
    Option.some.injEq]
  rw [if_neg (show ¬ (c = '-' ∨ c = '+') from fun h => h.elim hcm hcp)]
  simp only [List.drop_zero, List.head?_cons, Option.some.injEq]
  have d1 : List.drop 1 (c :: t) = t := rfl
  have d2 : List.drop 2 (c :: t) = List.drop 1 t := rfl
  rw [d1, d2]
  rw [if_neg hpfx]
  simp only [List.drop_zero, e2]
  rw [if_neg (show ¬ ((c :: t).length = 0) by simp)]
  rw [if_pos hraw, if_neg hcm]
  simp

/-- C6 counterexample: the claim calls an argument invalid when it is not
exactly six hexadecimal digits after an optional leading hash mark, and
asserts invalid arguments make parsing fail.  The argument 0x1234 contains
the letter x, so it is not six hexadecimal digits, yet strtoul consumes
its 0x marker and the code accepts it (six characters consumed, value
0x1234): parsing succeeds, no non-zero exit occurs, and the session goes
on to create a window. -/
theorem claim_C6_counterexample :
    isSixHexColor ("0x1234") = false ∧
    (parse_b imv_create ("0x1234")).isSome = true ∧
    (startup (parse_b imv_create ("0x1234"))).exit_code = 0 ∧
    (startup (parse_b imv_create ("0x1234"))).window_created = true := by
  decide

/-- C6 as amended: a background color argument is rejected exactly when
the base-16 strtoul parse (which may count skipped whitespace, a sign, or
an 0x marker toward the consumed span) does not consume precisely six
characters spanning the whole argument after the optional leading hash
mark, or its 32-bit value exceeds 0xFFFFFF; any argument that is exactly
six hexadecimal digits after an optional hash mark is accepted, and its
red, green and blue fields are the top, middle and bottom bytes of the
hex value.  An invalid slideshow duration (one the code computes as
ULONG_MAX) is likewise rejected, and every rejected argument produces a
non-zero exit before any window is created. -/
theorem claim_C6_amended (imv : Imv) (s : String) :
    (parse_b imv s = none → startup (parse_b imv s) = ⟨1, false⟩) ∧
    (parse_t imv s = none → startup (parse_t imv s) = ⟨1, false⟩) ∧
    (parse_t imv s = none ↔ slideshow_duration_of s.toList = ULONG_MAX) ∧
    (s ≠ "checks" →
      (parse_b imv s = none ↔
        ¬ ((cStrtoul16 (stripHash s.toList)).2 = (stripHash s.toList).length ∧
           (cStrtoul16 (stripHash s.toList)).2 = 6 ∧
           (cStrtoul16 (stripHash s.toList)).1 % 2 ^ 32 ≤ 0xFFFFFF))) ∧
    (isSixHexColor s = true →
      ∃ imv2, parse_b imv s = some imv2 ∧
        imv2.background_color.r * 65536 + imv2.background_color.g * 256 +
          imv2.background_color.b = sixHexValue s ∧
        imv2.background_color.r < 256 ∧ imv2.background_color.g < 256 ∧
        imv2.background_color.b < 256) := by
  refine ⟨fun h => by rw [h]; rfl, fun h => by rw [h]; rfl, ?_, ?_, ?_⟩
  · by_cases hd : slideshow_duration_of s.toList = ULONG_MAX <;>
      simp [parse_t, hd]
  · intro hch
    simp only [parse_b, if_neg hch]
    by_cases hg : (cStrtoul16 (stripHash s.toList)).2 ≠ (stripHash s.toList).length ∨
        (cStrtoul16 (stripHash s.toList)).2 ≠ 6 ∨
        (cStrtoul16 (stripHash s.toList)).1 % 2 ^ 32 > 0xFFFFFF
    · rw [if_pos hg]
      constructor
      · rintro - ⟨e1, e2, e3⟩
        rcases hg with g | g | g
        · exact g e1
        · exact g e2
        · omega
      · intro h
        rfl
    · rw [if_neg hg]
      push_neg at hg
      obtain ⟨g1, g2, g3⟩ := hg
      constructor
      · intro h
        exact absurd h (by simp)
      · intro h
        exact absurd ⟨g1, g2, g3⟩ h
  · intro hsix
    have hsplit : (stripHash s.toList).length = 6 ∧
        (stripHash s.toList).all isHexDigit = true := by
      have := hsix
      rw [isSixHexColor, Bool.and_eq_true, beq_iff_eq] at this
      exact this
    obtain ⟨hlen, hall⟩ := hsplit
    have hsne : s ≠ "checks" := by
      rintro rfl
      revert hall
      decide
    have hne : stripHash s.toList ≠ [] := by
      intro e
      rw [e] at hlen
      simp at hlen
    have h16 : cStrtoul16 (stripHash s.toList) =
        (hexFold (stripHash s.toList), (stripHash s.toList).length) :=
      cStrtoul16_allhex _ hne hall (by omega)
    have hvlt : hexFold (stripHash s.toList) < 2 ^ 24 := by
      have := hexFold_lt _ hall
      rw [hlen] at this
      exact lt_of_lt_of_le this (by norm_num)
    have hmod : hexFold (stripHash s.toList) % 2 ^ 32 =
        hexFold (stripHash s.toList) :=
      Nat.mod_eq_of_lt (lt_trans hvlt (by norm_num))
    simp only [parse_b, if_neg hsne, h16, hlen, hmod]
    rw [if_neg (show ¬ ((6 : Nat) ≠ 6 ∨ (6 : Nat) ≠ 6 ∨
        hexFold (stripHash s.toList) > 0xFFFFFF) by
      push_neg
      refine ⟨rfl, rfl, ?_⟩
      have h24 : (2 : Nat) ^ 24 = 16777216 := by norm_num
      omega)]
    have hv24 : hexFold (stripHash s.toList) < 16777216 := by
      have h24 : (2 : Nat) ^ 24 = 16777216 := by norm_num
      omega
    refine ⟨_, rfl, ?_, ?_, ?_, ?_⟩ <;> dsimp only
    · unfold sixHexValue
      omega
    · exact Nat.mod_lt _ (by norm_num)
    · exact Nat.mod_lt _ (by norm_num)
    · exact Nat.mod_lt _ (by norm_num)

theorem claim_C6_witness :
    (∃ imv2, parse_b imv_create ("aabbcc") = some imv2 ∧
      imv2.background_color.r * 65536 + imv2.background_color.g * 256 +
        imv2.background_color.b = sixHexValue ("aabbcc") ∧
      imv2.background_color.r < 256 ∧ imv2.background_color.g < 256 ∧
      imv2.background_color.b < 256) ∧
    parse_t imv_create ("18446744073709551615.999") = none :=
  ⟨(claim_C6_amended imv_create ("aabbcc")).2.2.2.2 (by decide),
   ((claim_C6_amended imv_create ("18446744073709551615.999")).2.2.1).mpr
     (by decide)⟩
